import Mathlib

/-!
# Verification of mcp-server-composer

A shallow embedding of the core data model and operations of the
`mcp-server-composer` repository, together with theorems settling the
specification claims about them.

JSON values (as produced by Python's `json.loads` on the wire format) are
modelled by the inductive type `Json`; Python dicts become insertion-ordered
association lists, numbers are modelled as integers (no claim exercises
floats).  Stateful code is embedded as explicit state passing, and the
outcome of a blocking I/O step (pipe read/write, HTTP round trip) is an
explicit parameter enumerating the branches the source distinguishes.
-/

/-- Characters the embedding needs, given by code point. -/
def squote : Char := Char.ofNat 39

def dquote : Char := Char.ofNat 34

def bslash : Char := Char.ofNat 92

def lbraceChar : Char := Char.ofNat 123

def rbraceChar : Char := Char.ofNat 125

def dollarChar : Char := Char.ofNat 36

mutual
/-- JSON values, as produced by `json.loads`: `null`/`bool`/number/string,
arrays, and objects (Python dicts, insertion-ordered key/value lists). -/
inductive Json where
  | null : Json
  | bool (b : Bool) : Json
  | num (n : Int) : Json
  | str (s : String) : Json
  | arr (elems : JsonList) : Json
  | obj (fields : JsonFields) : Json
deriving Repr

/-- A list of JSON values (children of a JSON array). -/
inductive JsonList where
  | nil : JsonList
  | cons (head : Json) (tail : JsonList) : JsonList
deriving Repr

/-- The fields of a JSON object, in insertion order. -/
inductive JsonFields where
  | nil : JsonFields
  | cons (key : String) (val : Json) (tail : JsonFields) : JsonFields
deriving Repr
end

/-- Build a `JsonList` from a Lean list (literal convenience). -/
def jlist : List Json → JsonList
  | [] => .nil
  | j :: rest => .cons j (jlist rest)

/-- Build `JsonFields` from a Lean list (literal convenience). -/
def jfields : List (String × Json) → JsonFields
  | [] => .nil
  | (k, v) :: rest => .cons k v (jfields rest)

mutual
/-- Structural equality of JSON values (Python `==` on decoded values). -/
def jsonEq : Json → Json → Bool
  | .null, .null => true
  | .bool a, .bool b => a == b
  | .num a, .num b => a == b
  | .str a, .str b => a == b
  | .arr a, .arr b => jsonListEq a b
  | .obj a, .obj b => jsonFieldsEq a b
  | _, _ => false

def jsonListEq : JsonList → JsonList → Bool
  | .nil, .nil => true
  | .cons h t, .cons h' t' => jsonEq h h' && jsonListEq t t'
  | _, _ => false

def jsonFieldsEq : JsonFields → JsonFields → Bool
  | .nil, .nil => true
  | .cons k v t, .cons k' v' t' => k == k' && jsonEq v v' && jsonFieldsEq t t'
  | _, _ => false
end

namespace JsonFields

/-- Whether a key occurs among the fields (`k in d` for dicts). -/
def hasKey (key : String) : JsonFields → Bool
  | .nil => false
  | .cons k _ t => k == key || hasKey key t

/-- Value under the first occurrence of a key (`d.get(k)` / `d[k]`). -/
def lookup (key : String) : JsonFields → Option Json
  | .nil => none
  | .cons k v t => if k == key then some v else lookup key t

/-- Dict assignment `d[k] = v`: update in place when the key exists
(keeping its position), else append. -/
def set (key : String) (newVal : Json) : JsonFields → JsonFields
  | .nil => .cons key newVal .nil
  | .cons k v t =>
      if k == key then .cons k newVal t else .cons k v (set key newVal t)

/-- The keys, in order. -/
def keys : JsonFields → List String
  | .nil => []
  | .cons k _ t => k :: keys t

/-- Emptiness test. -/
def isEmpty : JsonFields → Bool
  | .nil => true
  | .cons _ _ _ => false

end JsonFields

namespace JsonList

/-- Whether the string occurs as an element (`s in l` for Python lists,
where a string compares equal only to an equal string). -/
def containsStr (s : String) : JsonList → Bool
  | .nil => false
  | .cons h t => jsonEq h (.str s) || containsStr s t

/-- Emptiness test. -/
def isEmpty : JsonList → Bool
  | .nil => true
  | .cons _ _ => false

end JsonList

namespace Json

/-- `d.get(k)` on a Python dict: the value under the first matching key of
an object, `none` for a missing key or a non-object. -/
def getField : Json → String → Option Json
  | .obj fields, k => fields.lookup k
  | _, _ => none

/-- Whether the value is a Python dict (`isinstance(x, dict)`). -/
def isObj : Json → Bool
  | .obj _ => true
  | _ => false

/-- Python truthiness of a parsed JSON value: `None`, `False`, `0`, `""`,
`[]` and the empty dict are falsy, everything else is truthy. -/
def truthy : Json → Bool
  | .null => false
  | .bool b => b
  | .num n => n != 0
  | .str s => s != ""
  | .arr elems => !elems.isEmpty
  | .obj fields => !fields.isEmpty

end Json

/-- `pat.isPrefixOf l || ...` over every suffix: substring test on char
lists, matching Python's `pat in s` for strings. -/
def listContainsSub (pat : List Char) : List Char → Bool
  | [] => pat.isEmpty
  | c :: cs => pat.isPrefixOf (c :: cs) || listContainsSub pat cs

/-- Python's `pat in s` substring test on strings. -/
def strContains (s pat : String) : Bool :=
  listContainsSub pat.data s.data

/-- Python's `key in x`: key membership for dicts, element membership for
lists, substring test for strings; `none` models the `TypeError` raised on
other operand types (short-circuited away when the value is falsy). -/
def pyIn (key : String) : Json → Option Bool
  | .obj fields => some (fields.hasKey key)
  | .arr elems => some (elems.containsStr key)
  | .str s => some (strContains s key)
  | _ => none

/-- The quote Python `repr` picks for a string: double quotes when the
string contains a single quote but no double quote, else single quotes. -/
def pyQuote (s : String) : Char :=
  if s.contains squote && !s.contains dquote then dquote else squote

/-- Escape one character inside a `repr`-quoted string (backslash and the
chosen quote; control characters are not exercised by any claim). -/
def pyEscapeChar (q c : Char) : List Char :=
  if c = bslash then [bslash, bslash]
  else if c = q then [bslash, q]
  else [c]

/-- Python `repr` of a string. -/
def pyReprStr (s : String) : String :=
  let q := pyQuote s
  String.mk ([q] ++ s.data.flatMap (pyEscapeChar q) ++ [q])

mutual
/-- Python `repr` of a parsed JSON value. -/
def pyRepr : Json → String
  | .null => "None"
  | .bool true => "True"
  | .bool false => "False"
  | .num n => toString n
  | .str s => pyReprStr s
  | .arr elems => "[" ++ pyReprList elems ++ "]"
  | .obj fields =>
      String.mk [lbraceChar] ++ pyReprFields fields ++ String.mk [rbraceChar]

def pyReprList : JsonList → String
  | .nil => ""
  | .cons h .nil => pyRepr h
  | .cons h t => pyRepr h ++ ", " ++ pyReprList t

def pyReprFields : JsonFields → String
  | .nil => ""
  | .cons k v .nil => pyReprStr k ++ ": " ++ pyRepr v
  | .cons k v t => pyReprStr k ++ ": " ++ pyRepr v ++ ", " ++ pyReprFields t
end

/-- Python `str` of a parsed JSON value: a string prints verbatim, every
other value prints as its `repr` (matching `str()` on values decoded by
`json.loads`). -/
def pyStr : Json → String
  | .str s => s
  | j => pyRepr j

/-- Python dict assignment `d[k] = v` on an insertion-ordered association
list with non-JSON values: update in place when the key exists, else
append. -/
def assocSet {α : Type} (l : List (String × α)) (k : String) (v : α) :
    List (String × α) :=
  if l.any (fun p => p.1 == k) then
    l.map (fun p => if p.1 == k then (k, v) else p)
  else
    l ++ [(k, v)]

/-!
## ToolProxy (`mcp_server_composer/tool_proxy.py`)

`ToolProxy._send_request` performs blocking pipe I/O; its branch structure
is embedded over `SendOutcome`, which enumerates exactly the cases the
source distinguishes (tool_proxy.py:209-251).
-/

/-- The possible outcomes of the I/O performed by `_send_request`. -/
inductive SendOutcome where
  | noPipes : SendOutcome
  | writeFailure : SendOutcome
  | timeout : SendOutcome
  | emptyLine : SendOutcome
  | malformedLine : SendOutcome
  | line (response : Json) : SendOutcome
deriving Repr

/-- `ToolProxy._send_request` (tool_proxy.py:209-251): returns `None` when
the process has no stdin/stdout pipes, when writing raises, when the read
times out, when the line is empty (EOF), or when `json.loads` raises
(caught by the outer `except`); returns the parsed object only for a
non-empty line that arrives within the timeout.  Total: every exception is
caught and converted to `None`. -/
def send_request : SendOutcome → Option Json
  | .noPipes => none
  | .writeFailure => none
  | .timeout => none
  | .emptyLine => none
  | .malformedLine => none
  | .line response => some response

/-- What the forwarding closure `proxy_tool` does with a response: return a
value, raise a `RuntimeError`, or raise the builtin error the corresponding
Python operation would raise (re-raised by the closure's `except`). -/
inductive ProxyCallResult where
  | ok (value : Json) : ProxyCallResult
  | runtimeError (message : String) : ProxyCallResult
  | typeError : ProxyCallResult
  | attributeError : ProxyCallResult
deriving Repr

/-- The forwarding closure `proxy_tool` (tool_proxy.py:141-174) as a
function of the `_send_request` result: on a truthy response containing
`result`, unwraps the MCP content envelope (`content[0].get("text",
str(content))` for a non-empty content list, `str` of the content or of the
raw result otherwise); on a truthy response containing `error`, raises
`RuntimeError` with the error's message; otherwise raises `RuntimeError`
("No response from tool execution"). -/
def proxy_tool (response : Option Json) : ProxyCallResult :=
  match response with
  | none => .runtimeError "No response from tool execution"
  | some resp =>
    if !resp.truthy then .runtimeError "No response from tool execution"
    else
      match pyIn "result" resp with
      | none => .typeError
      | some true =>
        match resp with
        | .obj respFields =>
          let result := (respFields.lookup "result").getD .null
          match result with
          | .obj resultFields =>
            if resultFields.hasKey "content" then
              let content := (resultFields.lookup "content").getD .null
              match content with
              | .arr (.cons c0 rest) =>
                match c0 with
                | .obj c0Fields =>
                    .ok ((c0Fields.lookup "text").getD
                      (.str (pyStr (.arr (.cons c0 rest)))))
                | _ => .attributeError
              | .arr .nil => .ok (.str (pyStr content))
              | _ => .ok (.str (pyStr content))
            else .ok (.str (pyStr result))
          | _ => .ok (.str (pyStr result))
        | _ => .typeError
      | some false =>
        match pyIn "error" resp with
        | none => .typeError
        | some true =>
          match resp with
          | .obj respFields =>
            match (respFields.lookup "error").getD .null with
            | .obj errFields =>
                .runtimeError ("Tool execution error: " ++
                  pyStr ((errFields.lookup "message").getD (.str "Unknown error")))
            | _ => .attributeError
          | _ => .typeError
        | some false => .runtimeError "No response from tool execution"

/-- Modelled from the spec: the composer-level conflict strategy enum
`ConflictResolution` (its module `composer.py` is not among the sources;
the spec glossary lists the strategies prefix/suffix/override/ignore/error/
custom).  `tool_proxy.py` only ever compares it with `PREFIX`. -/
inductive ConflictResolution where
  | PREFIX : ConflictResolution
  | SUFFIX : ConflictResolution
  | OVERRIDE : ConflictResolution
  | IGNORE : ConflictResolution
  | ERROR : ConflictResolution
  | CUSTOM : ConflictResolution
deriving Repr, DecidableEq

/-- The composer state that `ToolProxy._register_tool_proxy` mutates: the
strategy it consults and the `composed_tools` / `source_mapping` dicts it
writes (the FastMCP `_tools` registry is keyed by the same name). -/
structure ComposerState where
  conflict_resolution : ConflictResolution
  composed_tools : List (String × Json)
  source_mapping : List (String × String)
deriving Repr

/-- The dict stored in `composed_tools` (tool_proxy.py:203-206). -/
def composedEntry (tool_def : Json) : Json :=
  .obj (.cons "description" ((tool_def.getField "description").getD (.str ""))
    (.cons "inputSchema" ((tool_def.getField "inputSchema").getD (.obj .nil)) .nil))

/-- `ToolProxy._register_tool_proxy` (tool_proxy.py:121-207): under the
`PREFIX` strategy the registered name is `f"{server_name}:{tool_name}"`
unconditionally, otherwise the tool's own name; registration writes
`composed_tools[prefixed_name]` and `source_mapping[prefixed_name]`.
A non-string name outside the `PREFIX` branch raises `AttributeError` at
`prefixed_name.replace(...)`, which propagates to `discover_tools`. -/
def register_tool_proxy (st : ComposerState) (server_name : String)
    (tool_name tool_def : Json) : Except String ComposerState :=
  let prefixed_name : Json :=
    if st.conflict_resolution = .PREFIX then
      .str (server_name ++ ":" ++ pyStr tool_name)
    else tool_name
  match prefixed_name with
  | .str pn =>
      .ok { st with
        composed_tools := assocSet st.composed_tools pn (composedEntry tool_def),
        source_mapping := assocSet st.source_mapping pn server_name }
  | _ => .error "AttributeError"

/-- Whether every element is a dict (the logging comprehension
`[t.get('name') for t in tools]` at tool_proxy.py:107 raises before any
registration when some element is not). -/
def JsonList.allObj : JsonList → Bool
  | .nil => true
  | .cons h t => h.isObj && allObj t

/-- The registration loop of `discover_tools` (tool_proxy.py:110-114):
register each tool that has a truthy `name`; an exception raised by
`_register_tool_proxy` is caught by the outer `except`, keeping the
registrations made so far. -/
def register_loop (server_name : String) (st : ComposerState) :
    JsonList → ComposerState
  | .nil => st
  | .cons tool rest =>
    match tool with
    | .obj fields =>
      match fields.lookup "name" with
      | some nm =>
          if nm.truthy then
            match register_tool_proxy st server_name nm tool with
            | .ok st' => register_loop server_name st' rest
            | .error _ => st
          else register_loop server_name st rest
      | none => register_loop server_name st rest
    | _ => st

/-- `ToolProxy.discover_tools` (tool_proxy.py:40-119) as a function of the
outcomes of its two requests (`initialize`, then `tools/list`): aborts —
registering nothing and raising nothing (the whole body sits in a
`try/except`) — when the initialize response is missing, falsy, or carries
an `error` field; otherwise registers the tools listed by a well-formed
`tools/list` result. -/
def discover_tools (st : ComposerState) (server_name : String)
    (init_outcome tools_outcome : SendOutcome) : ComposerState :=
  match send_request init_outcome with
  | none => st
  | some response =>
    if !response.truthy then st
    else match pyIn "error" response with
      | none => st
      | some true => st
      | some false =>
        match send_request tools_outcome with
        | none => st
        | some tools_response =>
          if !tools_response.truthy then st
          else match pyIn "result" tools_response with
            | none => st
            | some false => st
            | some true =>
              match tools_response with
              | .obj tFields =>
                match (tFields.lookup "result").getD .null with
                | .obj resultFields =>
                  match (resultFields.lookup "tools").getD (.arr .nil) with
                  | .arr tools =>
                      if tools.allObj then register_loop server_name st tools
                      else st
                  | _ => st
                | _ => st
              | _ => st

/-- The tool definition `{"name": "t", "description": "d"}` advertised by
the child in the C2 counterexample. -/
def bareToolDef : Json :=
  Json.obj (jfields [("name", Json.str "t"), ("description", Json.str "d")])

/-- A successful initialize response for the C2 counterexample. -/
def bareInitResponse : Json :=
  Json.obj (jfields [("result", Json.obj (jfields [("serverInfo", Json.str "x")]))])

/-- A `tools/list` response advertising only `bareToolDef`. -/
def bareToolsResponse : Json :=
  Json.obj (jfields [("result",
    Json.obj (jfields [("tools", Json.arr (jlist [bareToolDef]))]))])

/-- The composer state after discovering `bareToolDef` from server `s`
under the `PREFIX` strategy, starting from an empty registry. -/
def bareDiscoveryResult : ComposerState :=
  discover_tools ⟨ConflictResolution.PREFIX, [], []⟩ "s"
    (SendOutcome.line bareInitResponse) (SendOutcome.line bareToolsResponse)

/-!
## ToolManager

`tool_manager.py` itself is not among the sources; only its configuration
models (`config.py`, present) and its test suite
(`src/tests/test_tool_manager.py`) are.  The registry and its conflict
resolution algorithm are therefore modelled from spec section 4.6, cross
checked against the expectations of the test suite.
-/

/-- `ConflictResolutionStrategy` (config.py:16-23). -/
inductive ConflictResolutionStrategy where
  | PREFIX : ConflictResolutionStrategy
  | SUFFIX : ConflictResolutionStrategy
  | IGNORE : ConflictResolutionStrategy
  | ERROR : ConflictResolutionStrategy
  | OVERRIDE : ConflictResolutionStrategy
  | CUSTOM : ConflictResolutionStrategy
deriving Repr, DecidableEq

/-- The string value of each strategy (config.py:18-23). -/
def ConflictResolutionStrategy.value : ConflictResolutionStrategy → String
  | .PREFIX => "prefix"
  | .SUFFIX => "suffix"
  | .IGNORE => "ignore"
  | .ERROR => "error"
  | .OVERRIDE => "override"
  | .CUSTOM => "custom"

/-- `ToolOverrideConfig` (config.py:233-236). -/
structure ToolOverrideConfig where
  tool_pattern : String
  resolution : ConflictResolutionStrategy
deriving Repr, DecidableEq

/-- `CustomTemplateConfig` (config.py:239-244). -/
structure CustomTemplateConfig where
  template : String
deriving Repr, DecidableEq

/-- `VersioningConfig` (config.py:247-251). -/
structure VersioningConfig where
  enabled : Bool
  allow_multiple_versions : Bool
  version_suffix_format : String
deriving Repr, DecidableEq

/-- `ToolManagerConfig` (config.py:254-263). -/
structure ToolManagerConfig where
  conflict_resolution : ConflictResolutionStrategy
  tool_overrides : List ToolOverrideConfig
  custom_template : CustomTemplateConfig
  aliases : List (String × String)
  versioning : VersioningConfig
deriving Repr, DecidableEq

/-- The field defaults of `ToolManagerConfig` (config.py:254-263). -/
def defaultToolManagerConfig : ToolManagerConfig :=
  ⟨.PREFIX, [], ⟨"{server_name}_{tool_name}"⟩, [],
    ⟨false, false, "_v{version}"⟩⟩

/-- Modelled from the spec: glob-style pattern matching with the `*`
wildcard, as used for `tool_pattern` overrides (spec section 4.6 step 1; the
matching code lives in the absent `tool_manager.py`). -/
def globMatch (ps cs : List Char) : Bool :=
  match ps, cs with
  | [], [] => true
  | [], _ :: _ => false
  | p :: rest, [] => p == '*' && globMatch rest []
  | p :: rest, c :: cs' =>
      if p == '*' then globMatch rest (c :: cs') || globMatch (p :: rest) cs'
      else p == c && globMatch rest cs'
termination_by ps.length + cs.length
decreasing_by all_goals simp_arith

/-- `"{server_name}_{tool_name}"`-style template rendering
(`custom_template.template.format(...)`, spec section 4.6 step 4). -/
def renderCustomTemplate (template server_name tool_name : String) : String :=
  (template.replace "{server_name}" server_name).replace "{tool_name}" tool_name

/-- `version_suffix_format.format(version)` (spec section 4.6 step 2). -/
def renderVersionSuffix (fmt version : String) : String :=
  fmt.replace "{version}" version

/-- One `conflicts_resolved` audit entry (spec section 3: `{tool, servers,
strategy, resolved_name}`; `strategy` is the enum's string value, as
asserted by `test_get_conflicts`). -/
structure ConflictRecord where
  tool : String
  servers : List String
  strategy : String
  resolved_name : String
deriving Repr, DecidableEq

/-- Modelled from the spec: the `ToolManager` state (`tool_manager.py` is
absent from the sources) — the registry of resolved tools, their owning
servers, aliases, and the append-only conflict audit trail (spec section 3,
"ToolManager"). -/
structure ToolManager where
  config : ToolManagerConfig
  tools : List (String × Json)
  tool_sources : List (String × String)
  aliases : List (String × String)
  conflicts_resolved : List ConflictRecord
deriving Repr

/-- A fresh manager: empty registry, aliases seeded from the configuration
(as `test_init_with_config` expects). -/
def ToolManager.init (config : ToolManagerConfig) : ToolManager :=
  ⟨config, [], [], config.aliases, []⟩

/-- The strategy effective for one tool name: the first matching per-tool
override pattern wins, else the global strategy (spec section 4.6 step 1). -/
def ToolManagerConfig.strategyFor (cfg : ToolManagerConfig)
    (tool_name : String) : ConflictResolutionStrategy :=
  match cfg.tool_overrides.find?
      (fun o => globMatch o.tool_pattern.data tool_name.data) with
  | some o => o.resolution
  | none => cfg.conflict_resolution

/-- Modelled from the spec: registration of a single `(server_name,
tool_name)` pair per the section 4.6 algorithm — versioning first, then
register-as-is when the name is free, else the effective conflict strategy.
Returns the updated manager, the mapping entry (`original ↦ resolved`), and
the `MCPToolConflictError` payload when the `ERROR` strategy fires (in
which case nothing is modified). -/
def ToolManager.registerOne (tm : ToolManager) (server_name tool_name : String)
    (tool_def : Json) (server_version : Option String) :
    ToolManager × Option (String × String) × Option (String × List String) :=
  let ver := tm.config.versioning
  if ver.enabled && ver.allow_multiple_versions && server_version.isSome then
    let resolved := tool_name ++
      renderVersionSuffix ver.version_suffix_format (server_version.getD "")
    ({ tm with
        tools := assocSet tm.tools resolved tool_def,
        tool_sources := assocSet tm.tool_sources resolved server_name },
      some (tool_name, resolved), none)
  else if !(tm.tools.any (fun p => p.1 == tool_name)) then
    ({ tm with
        tools := assocSet tm.tools tool_name tool_def,
        tool_sources := assocSet tm.tool_sources tool_name server_name },
      some (tool_name, tool_name), none)
  else
    let existing_server := (tm.tool_sources.lookup tool_name).getD ""
    match tm.config.strategyFor tool_name with
    | .ERROR => (tm, none, some (tool_name, [existing_server, server_name]))
    | .OVERRIDE =>
        ({ tm with
            tools := assocSet tm.tools tool_name tool_def,
            tool_sources := assocSet tm.tool_sources tool_name server_name,
            conflicts_resolved := tm.conflicts_resolved ++
              [⟨tool_name, [existing_server, server_name],
                ConflictResolutionStrategy.value .OVERRIDE, tool_name⟩] },
          some (tool_name, tool_name), none)
    | .IGNORE =>
        ({ tm with
            conflicts_resolved := tm.conflicts_resolved ++
              [⟨tool_name, [existing_server, server_name],
                ConflictResolutionStrategy.value .IGNORE, tool_name⟩] },
          some (tool_name, tool_name), none)
    | .PREFIX =>
        let resolved := server_name ++ "_" ++ tool_name
        ({ tm with
            tools := assocSet tm.tools resolved tool_def,
            tool_sources := assocSet tm.tool_sources resolved server_name,
            conflicts_resolved := tm.conflicts_resolved ++
              [⟨tool_name, [existing_server, server_name],
                ConflictResolutionStrategy.value .PREFIX, resolved⟩] },
          some (tool_name, resolved), none)
    | .SUFFIX =>
        let resolved := tool_name ++ "_" ++ server_name
        ({ tm with
            tools := assocSet tm.tools resolved tool_def,
            tool_sources := assocSet tm.tool_sources resolved server_name,
            conflicts_resolved := tm.conflicts_resolved ++
              [⟨tool_name, [existing_server, server_name],
                ConflictResolutionStrategy.value .SUFFIX, resolved⟩] },
          some (tool_name, resolved), none)
    | .CUSTOM =>
        let resolved := renderCustomTemplate tm.config.custom_template.template
          server_name tool_name
        ({ tm with
            tools := assocSet tm.tools resolved tool_def,
            tool_sources := assocSet tm.tool_sources resolved server_name,
            conflicts_resolved := tm.conflicts_resolved ++
              [⟨tool_name, [existing_server, server_name],
                ConflictResolutionStrategy.value .CUSTOM, resolved⟩] },
          some (tool_name, resolved), none)

/-- Modelled from the spec: `ToolManager.register_tools(server_name,
tools_dict, server_version)` — the single public entry point (spec section
4.6 step 6), processing the tools in order and returning the complete
`original ↦ resolved` mapping; an `MCPToolConflictError` aborts the
remaining registrations while keeping the effects already applied (a Python
`raise` discards the mapping, carried here alongside the error). -/
def ToolManager.register_tools (tm : ToolManager) (server_name : String)
    (tools : List (String × Json)) (server_version : Option String) :
    ToolManager × List (String × String) × Option (String × List String) :=
  match tools with
  | [] => (tm, [], none)
  | (tool_name, tool_def) :: rest =>
    match tm.registerOne server_name tool_name tool_def server_version with
    | (tm', some entry, none) =>
        let r := tm'.register_tools server_name rest server_version
        (r.1, entry :: r.2.1, r.2.2)
    | (tm', _, some e) => (tm', [], some e)
    | (tm', none, none) => (tm', [], none)

/-- `resolve_alias(name)` returns `aliases.get(name, name)` — total,
single-hop (spec section 4.6). -/
def ToolManager.resolve_alias (tm : ToolManager) (name : String) : String :=
  (tm.aliases.lookup name).getD name

/-!
## Protocol translator

`proxy/translator.py` is absent from the sources; only its test suite
(`src/tests/test_translator.py`) is present.  `StdioToSseTranslator` is
modelled from spec section 4.4 and those tests.
-/

/-- Modelled from the spec: the `StdioToSseTranslator` state (its module
`proxy/translator.py` is missing) — an HTTP client bound to a remote
SSE/JSON-RPC base URL, fixed headers, a timeout (spec section 4.4,
corroborated by `test_initialization`). -/
structure StdioToSseTranslator where
  sse_url : String
  headers : List (String × String)
  timeout : Nat
  running : Bool
deriving Repr, DecidableEq

/-- The outcome of the one POST round trip inside `translate`: a parsed
JSON-RPC response body, an HTTP-layer failure (connection refused, non-2xx,
protocol error — `httpx.HTTPError`), or any other exception. -/
inductive HttpOutcome where
  | success (body : Json) : HttpOutcome
  | httpError (message : String) : HttpOutcome
  | failure (message : String) : HttpOutcome
deriving Repr

/-- The JSON-RPC error envelope the translator synthesizes, echoing the
request's `id` when it has one. -/
def jsonRpcErrorResponse (reqId : Option Json) (code : Int)
    (message : String) : Json :=
  .obj (jfields [("jsonrpc", .str "2.0"),
    ("id", reqId.getD .null),
    ("error", .obj (jfields [("code", .num code), ("message", .str message)]))])

/-- Modelled from the spec: `StdioToSseTranslator.translate(request)` (spec
section 4.4): on success the response body verbatim; on an HTTP-layer error
a synthesized JSON-RPC error with code `-32000` and a message describing the
HTTP failure; on any other exception a synthesized JSON-RPC error with code
`-32603` ("Internal error") — it never raises past this boundary, which the
embedding reflects by being a total function of the outcome. -/
def StdioToSseTranslator.translate (tr : StdioToSseTranslator)
    (request : Json) (outcome : HttpOutcome) : Json :=
  match outcome with
  | .success body => body
  | .httpError m =>
      jsonRpcErrorResponse (request.getField "id") (-32000) ("HTTP error: " ++ m)
  | .failure m =>
      jsonRpcErrorResponse (request.getField "id") (-32603) ("Internal error: " ++ m)

/-- The `error.code` of a JSON-RPC envelope, when present. -/
def Json.errorCode (j : Json) : Option Int :=
  match j.getField "error" with
  | some e =>
      match e.getField "code" with
      | some (.num n) => some n
      | _ => none
  | none => none

/-- The `error.message` of a JSON-RPC envelope, when present. -/
def Json.errorMessage (j : Json) : Option String :=
  match j.getField "error" with
  | some e =>
      match e.getField "message" with
      | some (.str s) => some s
      | _ => none
  | none => none

/-!
## Process

`process.py` is absent from the sources; only its test suite
(`src/tests/test_process_manager.py`) is present.  The `Process` state
machine is modelled from spec sections 3 and 4.1 and those tests.
-/

/-- `ProcessState` (spec section 3: `STOPPED, STARTING, RUNNING, STOPPING,
CRASHED`; the transient states must at least be observable as
RUNNING/STOPPED, which is how the operations below use them). -/
inductive ProcessState where
  | STOPPED : ProcessState
  | STARTING : ProcessState
  | RUNNING : ProcessState
  | STOPPING : ProcessState
  | CRASHED : ProcessState
deriving Repr, DecidableEq

/-- Modelled from the spec: the `Process` record (`process.py` is missing)
— name/command identity and the state/pid/timestamps/exit-code/
restart-count bookkeeping (spec section 3, corroborated by
`test_process_init`). -/
structure Process where
  name : String
  command : List String
  state : ProcessState
  pid : Option Nat
  started_at : Option Nat
  stopped_at : Option Nat
  exit_code : Option Int
  restart_count : Nat
deriving Repr, DecidableEq

/-- The errors `start`/`stop` raise (RuntimeError "already ..." /
"not running", per `test_process_double_start_error` and
`test_process_stop_not_running_error`). -/
inductive ProcessError where
  | alreadyRunning (name : String) : ProcessError
  | notRunning (name : String) : ProcessError
deriving Repr, DecidableEq

/-- A freshly constructed process: STOPPED, no pid/timestamps/exit code,
restart count zero (`test_process_init`). -/
def Process.make (name : String) (command : List String) : Process :=
  ⟨name, command, .STOPPED, none, none, none, none, 0⟩

/-- Modelled from the spec: `Process.start()` — fails when already
RUNNING, else spawns (the OS-assigned pid and the clock are parameters of
the embedding) and records state/pid/started_at (spec section 4.1). -/
def Process.start (p : Process) (newPid : Nat) (now : Nat) :
    Except ProcessError Process :=
  if p.state = .RUNNING then .error (.alreadyRunning p.name)
  else .ok { p with state := .RUNNING, pid := some newPid,
                    started_at := some now }

/-- Modelled from the spec: `Process.stop()` — fails when not RUNNING,
else terminates and records STOPPED/exit_code/stopped_at, clearing the pid
(spec sections 3 and 4.1: `pid` is set only while running, and a stop
always ends with `exit_code` set). -/
def Process.stop (p : Process) (code : Int) (now : Nat) :
    Except ProcessError Process :=
  if p.state = .RUNNING then
    .ok { p with state := .STOPPED, pid := none,
                 exit_code := some code, stopped_at := some now }
  else .error (.notRunning p.name)

/-- Modelled from the spec: `Process.restart()` — `stop()` then `start()`,
incrementing `restart_count` (spec section 4.1). -/
def Process.restart (p : Process) (code : Int) (t1 : Nat) (newPid : Nat)
    (t2 : Nat) : Except ProcessError Process :=
  match p.stop code t1 with
  | .error e => .error e
  | .ok p1 =>
      match p1.start newPid t2 with
      | .error e => .error e
      | .ok p2 => .ok { p2 with restart_count := p2.restart_count + 1 }

/-- The processes reachable through the modelled lifecycle. -/
inductive Process.Reachable : Process → Prop where
  | make (name : String) (command : List String) :
      Reachable (Process.make name command)
  | start (p : Process) (newPid now : Nat) (p' : Process) :
      Reachable p → p.start newPid now = .ok p' → Reachable p'
  | stop (p : Process) (code : Int) (now : Nat) (p' : Process) :
      Reachable p → p.stop code now = .ok p' → Reachable p'
  | restart (p : Process) (code : Int) (t1 newPid t2 : Nat) (p' : Process) :
      Reachable p → p.restart code t1 newPid t2 = .ok p' → Reachable p'

/-!
## Transport layer

`transport/base.py`, `transport/stdio.py` and `transport/sse_server.py`
are absent from the sources (only `transport/__init__.py` and the test
suites are present).  Both transports are modelled from spec sections 3 and
4.3 and the tests.  Every operation returns the (possibly updated)
transport together with its result, so that "no partial side effects" is
the literal statement that the returned transport equals the input.
-/

/-- `TransportType` (`transport/base.py`, re-exported by
`transport/__init__.py`). -/
inductive TransportType where
  | STDIO : TransportType
  | SSE : TransportType
deriving Repr, DecidableEq

/-- The connection-error kind raised by transport operations
(`ConnectionError("... not connected")` in the tests). -/
inductive TransportError where
  | notConnected (name : String) : TransportError
deriving Repr, DecidableEq

/-- Modelled from the spec: the STDIO transport state (its module is
missing) — identity, connection flag, subprocess pid, and the line
buffers of the child's pipes (spec sections 3 and 4.3). -/
structure STDIOTransport where
  name : String
  command : String
  args : List String
  connected : Bool
  child_pid : Option Nat
  stdin_lines : List Json
  stdout_lines : List Json
deriving Repr

/-- `create_stdio_transport`: a fresh, never-connected transport
(`test_send_without_connection` constructs transports this way). -/
def create_stdio_transport (name command : String) (args : List String) :
    STDIOTransport :=
  ⟨name, command, args, false, none, [], []⟩

namespace STDIOTransport

/-- Modelled from the spec: `connect()` spawns the child and marks the
transport connected (spec section 4.3). -/
def connect (t : STDIOTransport) (pid : Nat) : STDIOTransport :=
  { t with connected := true, child_pid := some pid }

/-- Modelled from the spec: `disconnect()` terminates the child and always
clears the internal handles, so `is_connected` is subsequently false. -/
def disconnect (t : STDIOTransport) : STDIOTransport :=
  { t with connected := false, child_pid := none,
           stdin_lines := [], stdout_lines := [] }

/-- Modelled from the spec: `send(message)` — a connection error when not
connected (leaving the transport untouched), else one serialized JSON line
written to the child's stdin. -/
def send (t : STDIOTransport) (message : Json) :
    STDIOTransport × Except TransportError Unit :=
  if t.connected then
    ({ t with stdin_lines := t.stdin_lines ++ [message] }, .ok ())
  else (t, .error (.notConnected t.name))

/-- Modelled from the spec: `receive()` — a connection error when not
connected (leaving the transport untouched); a closed pipe or EOF also
surfaces as a connection error, else the next stdout line. -/
def receive (t : STDIOTransport) :
    STDIOTransport × Except TransportError Json :=
  if t.connected then
    match t.stdout_lines with
    | [] => (t, .error (.notConnected t.name))
    | m :: rest => ({ t with stdout_lines := rest }, .ok m)
  else (t, .error (.notConnected t.name))

/-- Modelled from the spec: `messages()` — a connection error when not
connected (leaving the transport untouched), else the lazy stream of
messages, modelled as the pending stdout lines. -/
def messages (t : STDIOTransport) :
    STDIOTransport × Except TransportError (List Json) :=
  if t.connected then ({ t with stdout_lines := [] }, .ok t.stdout_lines)
  else (t, .error (.notConnected t.name))

end STDIOTransport

/-- Modelled from the spec: the SSE transport state (its module is
missing) — bound host/port, connection flag, connected client ids, the
inbound FIFO queue fed by `POST /message`, and the broadcast log (spec
sections 3 and 4.3). -/
structure SSETransport where
  name : String
  host : String
  port : Nat
  connected : Bool
  clients : List Nat
  inbound : List Json
  broadcasts : List Json
deriving Repr

/-- A fresh, never-connected SSE transport
(`test_send_without_connection_error` constructs transports this way). -/
def create_sse_transport (name host : String) (port : Nat) : SSETransport :=
  ⟨name, host, port, false, [], [], []⟩

namespace SSETransport

/-- Modelled from the spec: `connect()` binds the HTTP listener. -/
def connect (t : SSETransport) : SSETransport :=
  { t with connected := true }

/-- Modelled from the spec: `disconnect()` stops the listener and closes
the client streams. -/
def disconnect (t : SSETransport) : SSETransport :=
  { t with connected := false, clients := [] }

/-- Modelled from the spec: `send(message)` — a connection error when not
connected (leaving the transport untouched), else a broadcast to every
connected client (fire-and-forget with zero clients). -/
def send (t : SSETransport) (message : Json) :
    SSETransport × Except TransportError Unit :=
  if t.connected then
    ({ t with broadcasts := t.broadcasts ++ [message] }, .ok ())
  else (t, .error (.notConnected t.name))

/-- Modelled from the spec: `receive()` — a connection error when not
connected (leaving the transport untouched), else the head of the inbound
queue (`none` models the suspension while the queue is empty). -/
def receive (t : SSETransport) :
    SSETransport × Except TransportError (Option Json) :=
  if t.connected then
    match t.inbound with
    | [] => (t, .ok none)
    | m :: rest => ({ t with inbound := rest }, .ok (some m))
  else (t, .error (.notConnected t.name))

/-- Modelled from the spec: `messages()` — a connection error when not
connected (leaving the transport untouched), else the stream of queued
inbound messages. -/
def messages (t : SSETransport) :
    SSETransport × Except TransportError (List Json) :=
  if t.connected then ({ t with inbound := [] }, .ok t.inbound)
  else (t, .error (.notConnected t.name))

end SSETransport

/-!
## Configuration environment-variable substitution
(`mcp_server_composer/config.py`, present in the sources)
-/

/-- First character class of the `$VAR` alternative: `[A-Z_]`. -/
def isVarStart (c : Char) : Bool :=
  (65 ≤ c.toNat && c.toNat ≤ 90) || c.toNat == 95

/-- Continuation class of the `$VAR` alternative: `[A-Z0-9_]`. -/
def isVarCont (c : Char) : Bool :=
  isVarStart c || (48 ≤ c.toNat && c.toNat ≤ 57)

/-- Split at the first closing brace: the `[^}]+`-candidate body and the
remainder after the brace, `none` when no closing brace exists. -/
def splitAtBrace : List Char → Option (List Char × List Char)
  | [] => none
  | c :: cs =>
      if c = rbraceChar then some ([], cs)
      else
        match splitAtBrace cs with
        | some (body, rest) => some (c :: body, rest)
        | none => none

/-- The scanner of `re.sub` with the pattern of `_substitute_env_var`
(config.py:426-439): at each position try `\x24\x7b([^\x7d]+)\x7d` first,
then `\x24([A-Z_][A-Z0-9_]*)`; a match is replaced by the environment
value, or kept verbatim when the variable is unset; otherwise advance one
character.  The fuel (one unit per step, each step consuming at least one
character) is supplied as the input length by `substituteEnvVar`, so the
fuel-0 branch only ever sees an empty remainder. -/
def substEnvAux (env : String → Option String) : Nat → List Char → List Char
  | 0, _ => []
  | _ + 1, [] => []
  | fuel + 1, c :: cs =>
    if c = dollarChar then
      match cs with
      | [] => [c]
      | d :: ds =>
        if d = lbraceChar then
          match splitAtBrace ds with
          | some (body, rest) =>
            if body.isEmpty then c :: substEnvAux env fuel cs
            else
              match env (String.mk body) with
              | some v => v.data ++ substEnvAux env fuel rest
              | none =>
                  (c :: d :: body ++ [rbraceChar]) ++ substEnvAux env fuel rest
          | none => c :: substEnvAux env fuel cs
        else if isVarStart d then
          let name := d :: ds.takeWhile isVarCont
          let rest := ds.dropWhile isVarCont
          match env (String.mk name) with
          | some v => v.data ++ substEnvAux env fuel rest
          | none => (c :: name) ++ substEnvAux env fuel rest
        else c :: substEnvAux env fuel cs
    else c :: substEnvAux env fuel cs

/-- `MCPComposerConfig._substitute_env_var` (config.py:426-439): replace
every `$\x7bVAR\x7d` / `$VAR` occurrence by its environment value, keeping
unset variables verbatim. -/
def substituteEnvVar (env : String → Option String) (value : String) : String :=
  String.mk (substEnvAux env value.data.length value.data)

mutual
/-- `MCPComposerConfig._substitute_env_recursive` (config.py:415-424):
rebuild dicts and lists recursively, substitute in strings, return
everything else unchanged. -/
def substituteEnvRecursive (env : String → Option String) : Json → Json
  | .obj fields => .obj (substituteEnvFields env fields)
  | .arr elems => .arr (substituteEnvList env elems)
  | .str s => .str (substituteEnvVar env s)
  | .null => .null
  | .bool b => .bool b
  | .num n => .num n

def substituteEnvList (env : String → Option String) : JsonList → JsonList
  | .nil => .nil
  | .cons h t => .cons (substituteEnvRecursive env h) (substituteEnvList env t)

def substituteEnvFields (env : String → Option String) :
    JsonFields → JsonFields
  | .nil => .nil
  | .cons k v t =>
      .cons k (substituteEnvRecursive env v) (substituteEnvFields env t)
end

/-- `MCPComposerConfig` (config.py:374-385), abstracted to the tree of its
field values as `model_dump()` returns it: a pydantic model is a value
record, and every field of the real model is a subtree of that dump. -/
structure MCPComposerConfig where
  dump : Json
deriving Repr

/-- `MCPComposerConfig.substitute_env_vars` (config.py:410-413): it runs
`_substitute_env_recursive` on `self.model_dump()` — a fresh copy of the
field values — discards the result, and returns `self`. -/
def MCPComposerConfig.substitute_env_vars (env : String → Option String)
    (cfg : MCPComposerConfig) : MCPComposerConfig :=
  let _ := substituteEnvRecursive env cfg.dump
  cfg

/-- The environment `{HOME: /root}` used to exhibit that the substitution
machinery itself would have rewritten a placeholder. -/
def homeEnv : String → Option String :=
  fun v => if v = "HOME" then some "/root" else none

/-! ## Theorems -/
/-! ## Helper lemmas -/

theorem JsonFields.hasKey_of_lookup {k : String} {v : Json} :
    ∀ (fs : JsonFields), fs.lookup k = some v → fs.hasKey k = true
  | .nil, h => by simp [JsonFields.lookup] at h
  | .cons k' v' t, h => by
      cases hbk : (k' == k) with
      | true => simp [JsonFields.hasKey, hbk]
      | false =>
          simp only [JsonFields.lookup, hbk] at h
          simp at h
          simp [JsonFields.hasKey, hbk, JsonFields.hasKey_of_lookup t h]

theorem JsonFields.isEmpty_eq_false_of_lookup {k : String} {v : Json}
    {fs : JsonFields} (h : fs.lookup k = some v) : fs.isEmpty = false := by
  cases fs with
  | nil => simp [JsonFields.lookup] at h
  | cons k' v' t => rfl

theorem Json.truthy_obj_of_lookup {k : String} {v : Json} {fs : JsonFields}
    (h : fs.lookup k = some v) : (Json.obj fs).truthy = true := by
  simp [Json.truthy, JsonFields.isEmpty_eq_false_of_lookup h]

/-! ## Claims about ToolProxy -/

/-- C10: `ToolProxy._send_request` is total and never raises to its caller:
it returns `None` when the process has no stdin/stdout pipes, when writing
or reading throws, when the read times out, or when the stdout line is
empty (EOF) or unparsable, and returns a parsed JSON object only when a
non-empty response line arrives within the timeout. -/
theorem send_request_total :
    send_request SendOutcome.noPipes = none ∧
    send_request SendOutcome.writeFailure = none ∧
    send_request SendOutcome.timeout = none ∧
    send_request SendOutcome.emptyLine = none ∧
    send_request SendOutcome.malformedLine = none ∧
    (∀ j : Json, send_request (SendOutcome.line j) = some j) ∧
    (∀ o : SendOutcome, send_request o = none ∨
      ∃ j : Json, o = SendOutcome.line j ∧ send_request o = some j) := by
  refine ⟨rfl, rfl, rfl, rfl, rfl, fun j => rfl, fun o => ?_⟩
  cases o <;> simp [send_request]

/-- C3: when the response to a `tools/call` has a `result` whose `content`
field is a non-empty list, the forwarding closure returns the first
element's `text` field, falling back to the string form of the content when
`text` is absent; for content `[{"text":"42"}]` it returns `"42"`, and for
content `[]` it returns the stringified empty list `"[]"`. -/
theorem proxy_tool_content_unwrap :
    (∀ (respFields resultFields c0Fields : JsonFields) (rest : JsonList),
        respFields.lookup "result" = some (Json.obj resultFields) →
        resultFields.lookup "content" =
            some (Json.arr (.cons (Json.obj c0Fields) rest)) →
        proxy_tool (some (Json.obj respFields)) =
          .ok ((c0Fields.lookup "text").getD
            (.str (pyStr (Json.arr (.cons (Json.obj c0Fields) rest)))))) ∧
    (∀ (respFields resultFields : JsonFields),
        respFields.lookup "result" = some (Json.obj resultFields) →
        resultFields.lookup "content" = some (Json.arr .nil) →
        proxy_tool (some (Json.obj respFields)) = .ok (.str "[]")) := by
  constructor
  · intro respFields resultFields c0Fields rest h1 h2
    simp [proxy_tool, Json.truthy, JsonFields.isEmpty_eq_false_of_lookup h1,
      pyIn, JsonFields.hasKey_of_lookup _ h1, h1,
      JsonFields.hasKey_of_lookup _ h2, h2]
  · intro respFields resultFields h1 h2
    simp [proxy_tool, Json.truthy, JsonFields.isEmpty_eq_false_of_lookup h1,
      pyIn, JsonFields.hasKey_of_lookup _ h1, h1,
      JsonFields.hasKey_of_lookup _ h2, h2]
    rfl

theorem proxy_tool_content_unwrap_witness :
    proxy_tool (some (Json.obj (jfields [("result", Json.obj (jfields
        [("content", Json.arr (jlist [Json.obj (jfields
          [("text", Json.str "42")])]))]))]))) = .ok (.str "42") ∧
    proxy_tool (some (Json.obj (jfields [("result", Json.obj (jfields
        [("content", Json.arr .nil)]))]))) = .ok (.str "[]") := by
  constructor
  · exact proxy_tool_content_unwrap.1
      (jfields [("result", Json.obj (jfields
        [("content", Json.arr (jlist [Json.obj (jfields
          [("text", Json.str "42")])]))]))])
      (jfields [("content", Json.arr (jlist [Json.obj (jfields
        [("text", Json.str "42")])]))])
      (jfields [("text", Json.str "42")]) .nil rfl rfl
  · exact proxy_tool_content_unwrap.2
      (jfields [("result", Json.obj (jfields [("content", Json.arr .nil)]))])
      (jfields [("content", Json.arr .nil)]) rfl rfl

/-- C5: when the initialize step fails (no response, or a response carrying
an `error` field), `discover_tools` registers no tools for that server and
returns without raising (it is a total function of the request outcomes),
leaving the composer state exactly as it was. -/
theorem discover_tools_init_failure (st : ComposerState) (server_name : String)
    (init_outcome tools_outcome : SendOutcome)
    (h : send_request init_outcome = none ∨
         ∃ resp : Json, send_request init_outcome = some resp ∧
           pyIn "error" resp = some true) :
    discover_tools st server_name init_outcome tools_outcome = st := by
  rcases h with h | ⟨resp, hsome, herr⟩
  · simp [discover_tools, h]
  · cases ht : resp.truthy <;>
      simp [discover_tools, hsome, herr, ht]

theorem discover_tools_init_failure_witness :
    discover_tools ⟨ConflictResolution.PREFIX, [], []⟩ "server1"
        SendOutcome.timeout SendOutcome.timeout =
      ⟨ConflictResolution.PREFIX, [], []⟩ :=
  discover_tools_init_failure ⟨ConflictResolution.PREFIX, [], []⟩ "server1"
    SendOutcome.timeout SendOutcome.timeout (Or.inl rfl)

/-- C2 (counterexample): under the `PREFIX` strategy, a tool named `t`
discovered from server `s` while nothing at all is registered — so its name
is not already registered — ends up registered under `"s:t"`, not under its
bare name `t`: the code prefixes on strategy alone, not on conflict. -/
theorem register_bare_name_counterexample :
    bareDiscoveryResult.composed_tools.map Prod.fst = ["s:t"] ∧
    bareDiscoveryResult.composed_tools.lookup "t" = none := ⟨by decide, rfl⟩

/-- C2 (amended): `_register_tool_proxy` names the registered tool
independently of what is already registered: a discovered tool with string
name `nm` is registered under its bare, unmodified name exactly when the
composer's conflict-resolution strategy is not `PREFIX` (overwriting any
existing entry on a name clash); under `PREFIX` it is registered as
`f"{server_name}:{nm}"` unconditionally, conflict or not. -/
theorem register_tool_proxy_name (st : ComposerState) (server_name nm : String)
    (tool_def : Json) :
    register_tool_proxy st server_name (.str nm) tool_def =
      .ok { st with
        composed_tools := assocSet st.composed_tools
          (if st.conflict_resolution = .PREFIX
            then server_name ++ ":" ++ nm else nm)
          (composedEntry tool_def),
        source_mapping := assocSet st.source_mapping
          (if st.conflict_resolution = .PREFIX
            then server_name ++ ":" ++ nm else nm)
          server_name } := by
  by_cases h : st.conflict_resolution = .PREFIX <;>
    simp [register_tool_proxy, h, pyStr]

/-! ## Claims about ToolManager -/

/-- C1: under the `PREFIX` strategy, registering a tool named `t` from
`server1` and then a tool named `t` from `server2` leaves the tools map
with exactly the keys `t` (server1's entry, unchanged) and `server2_t`,
and the mapping returned by the second call sends `t` to `server2_t`. -/
theorem register_tools_prefix_conflict (d1 d2 : Json) :
    let tm0 := ToolManager.init defaultToolManagerConfig
    let r1 := tm0.register_tools "server1" [("t", d1)] none
    let r2 := r1.1.register_tools "server2" [("t", d2)] none
    r2.1.tools.map Prod.fst = ["t", "server2_t"] ∧
    r2.1.tools.lookup "t" = some d1 ∧
    r2.1.tools.lookup "server2_t" = some d2 ∧
    r2.2.1 = [("t", "server2_t")] ∧
    r2.2.2 = none :=
  ⟨rfl, rfl, rfl, rfl, rfl⟩

/-- C8: under the `ERROR` strategy, registering a tool whose name is
already registered raises `MCPToolConflictError(t, [server1, server2])`,
and afterwards the first registration's entry — indeed the whole manager —
is unchanged: registration is atomic on error. -/
theorem register_tools_error_conflict (d1 d2 : Json) :
    let cfg := { defaultToolManagerConfig with
      conflict_resolution := ConflictResolutionStrategy.ERROR }
    let r1 := (ToolManager.init cfg).register_tools "server1" [("t", d1)] none
    let r2 := r1.1.register_tools "server2" [("t", d2)] none
    r2.2.2 = some ("t", ["server1", "server2"]) ∧
    r2.1 = r1.1 ∧
    r2.1.tools.lookup "t" = some d1 :=
  ⟨rfl, rfl, rfl⟩

/-- C4: `StdioToSseTranslator.translate` never raises: for every input
message it is total, returning the response body on success, a JSON-RPC
error with `error.code = -32000` and a message describing the HTTP failure
on any HTTP-layer error, and a JSON-RPC error with `error.code = -32603`
("Internal error") on any other exception. -/
theorem translate_error_containment (tr : StdioToSseTranslator)
    (request : Json) (m : String) (body : Json) :
    ((tr.translate request (.httpError m)).errorCode = some (-32000) ∧
     (tr.translate request (.httpError m)).errorMessage =
       some ("HTTP error: " ++ m)) ∧
    ((tr.translate request (.failure m)).errorCode = some (-32603) ∧
     (tr.translate request (.failure m)).errorMessage =
       some ("Internal error: " ++ m)) ∧
    tr.translate request (.success body) = body :=
  ⟨⟨rfl, rfl⟩, ⟨rfl, rfl⟩, rfl⟩

/-- C6: for every reachable process, `pid` is set iff the state is
RUNNING; `start()` on a RUNNING process fails with an "already running"
error and `stop()` on a non-running process fails with a "not running"
error; after a successful `stop()`, `exit_code` and `stopped_at` are both
set. -/
theorem process_state_invariant :
    (∀ p : Process, p.Reachable →
      (p.pid.isSome ↔ p.state = ProcessState.RUNNING)) ∧
    (∀ (p : Process) (newPid now : Nat), p.state = ProcessState.RUNNING →
      p.start newPid now = .error (.alreadyRunning p.name)) ∧
    (∀ (p : Process) (code : Int) (now : Nat),
      p.state ≠ ProcessState.RUNNING →
      p.stop code now = .error (.notRunning p.name)) ∧
    (∀ (p : Process) (code : Int) (now : Nat) (p' : Process),
      p.stop code now = .ok p' →
      p'.exit_code.isSome ∧ p'.stopped_at.isSome) := by
  refine ⟨?_, ?_, ?_, ?_⟩
  · intro p hp
    induction hp with
    | make name command => simp [Process.make]
    | start p newPid now p' _ hok _ =>
        rw [Process.start] at hok
        split at hok
        · exact absurd hok (by simp)
        · cases hok; simp
    | stop p code now p' _ hok _ =>
        rw [Process.stop] at hok
        split at hok
        · cases hok; simp
        · exact absurd hok (by simp)
    | restart p code t1 newPid t2 p' _ hok _ =>
        rw [Process.restart] at hok
        cases hs : p.stop code t1 with
        | error e => rw [hs] at hok; simp at hok
        | ok p1 =>
            rw [hs] at hok
            dsimp only at hok
            cases hst : p1.start newPid t2 with
            | error e => rw [hst] at hok; simp at hok
            | ok p2 =>
                rw [hst] at hok
                dsimp only at hok
                injection hok with hok
                subst hok
                rw [Process.start] at hst
                split at hst
                · exact absurd hst (by simp)
                · cases hst; simp
  · intro p newPid now h; simp [Process.start, h]
  · intro p code now h; simp [Process.stop, h]
  · intro p code now p' hok
    rw [Process.stop] at hok
    split at hok
    · cases hok; simp
    · exact absurd hok (by simp)

theorem process_state_invariant_witness :
    ((Process.make "test" ["cat"]).pid.isSome ↔
      (Process.make "test" ["cat"]).state = ProcessState.RUNNING) ∧
    ((Process.make "test" ["cat"]).start 41 1 =
      .ok ⟨"test", ["cat"], .RUNNING, some 41, some 1, none, none, 0⟩) ∧
    ((⟨"test", ["cat"], .RUNNING, some 41, some 1, none, none, 0⟩ :
        Process).start 42 2 = .error (.alreadyRunning "test")) ∧
    ((Process.make "idle" ["cat"]).stop 0 3 = .error (.notRunning "idle")) ∧
    ((⟨"test", ["cat"], .STOPPED, none, some 1, some 4, some 0, 0⟩ :
        Process).exit_code.isSome ∧
     (⟨"test", ["cat"], .STOPPED, none, some 1, some 4, some 0, 0⟩ :
        Process).stopped_at.isSome) := by
  have h := process_state_invariant
  exact ⟨h.1 _ (Process.Reachable.make "test" ["cat"]), rfl,
    h.2.1 _ 42 2 rfl, h.2.2.1 _ 0 3 (by simp [Process.make]),
    h.2.2.2 ⟨"test", ["cat"], .RUNNING, some 41, some 1, none, none, 0⟩
      0 4 _ rfl⟩

/-- C7: on a never-connected or disconnected transport — STDIO or SSE —
`send`, `receive` and `messages` each raise a connection error ("not
connected") and leave the transport's state entirely unchanged; fresh
transports start disconnected and `disconnect` always leaves the connection
flag false, so both ways of being disconnected are covered. -/
theorem transport_not_connected_guard :
    (∀ (t : STDIOTransport) (message : Json), t.connected = false →
      t.send message = (t, .error (.notConnected t.name)) ∧
      t.receive = (t, .error (.notConnected t.name)) ∧
      t.messages = (t, .error (.notConnected t.name))) ∧
    (∀ (u : SSETransport) (message : Json), u.connected = false →
      u.send message = (u, .error (.notConnected u.name)) ∧
      u.receive = (u, .error (.notConnected u.name)) ∧
      u.messages = (u, .error (.notConnected u.name))) ∧
    (∀ (name command : String) (args : List String),
      (create_stdio_transport name command args).connected = false) ∧
    (∀ (name host : String) (port : Nat),
      (create_sse_transport name host port).connected = false) ∧
    (∀ t : STDIOTransport, t.disconnect.connected = false) ∧
    (∀ u : SSETransport, u.disconnect.connected = false) := by
  refine ⟨?_, ?_, fun _ _ _ => rfl, fun _ _ _ => rfl,
    fun _ => rfl, fun _ => rfl⟩
  · intro t message h
    exact ⟨by simp [STDIOTransport.send, h], by simp [STDIOTransport.receive, h],
      by simp [STDIOTransport.messages, h]⟩
  · intro u message h
    exact ⟨by simp [SSETransport.send, h], by simp [SSETransport.receive, h],
      by simp [SSETransport.messages, h]⟩

theorem transport_not_connected_guard_witness :
    ((create_stdio_transport "test" "python" ["echo.py"]).send
        (Json.obj .nil) =
      (create_stdio_transport "test" "python" ["echo.py"],
        .error (.notConnected "test"))) ∧
    ((create_sse_transport "test" "127.0.0.1" 8112).receive =
      (create_sse_transport "test" "127.0.0.1" 8112,
        .error (.notConnected "test"))) :=
  ⟨(transport_not_connected_guard.1
      (create_stdio_transport "test" "python" ["echo.py"])
      (Json.obj .nil) rfl).1,
   ((transport_not_connected_guard.2.1
      (create_sse_transport "test" "127.0.0.1" 8112)
      (Json.obj .nil) rfl).2.1)⟩

/-- C9: for every configuration and every environment,
`substitute_env_vars()` returns the configuration with every field
unchanged — the recursive substitution runs on a dumped copy whose result
is discarded — even though the substitution itself (second conjunct) would
have replaced a `$\x7bHOME\x7d` placeholder, so no placeholder in any model
field is ever replaced. -/
theorem substitute_env_vars_frame :
    (∀ (env : String → Option String) (cfg : MCPComposerConfig),
      MCPComposerConfig.substitute_env_vars env cfg = cfg) ∧
    substituteEnvRecursive homeEnv (Json.str "$\x7bHOME\x7d") =
      Json.str "/root" :=
  ⟨fun _ _ => rfl, rfl⟩

